import Mathlib

/-!
Verification development for the survey-report chart generator
(`create_charts.py`).  The script reads a semicolon-delimited survey
CSV and, per question column, derives a chart specification plus a
one-line textual summary.

Shallow-embedding conventions:
* a column of the loaded dataframe is a `List Cell`, where
  `Cell := Option String`; `none` is a missing value (pandas `NaN`);
* machine floats are modelled as exact rationals `ℚ`; `round(x, k)`
  (banker's rounding) is `pyRound`/`rhe`; Python float `repr` of a
  `round`-ed value is `pyRoundStr` (decimal digits, trailing zeros
  stripped, at least one fractional digit).  IEEE-754 artefacts
  (signed zero, double rounding of exact decimal midpoints) are below
  this abstraction;
* `pandas.Series.value_counts` is `value_counts`: distinct non-missing
  values with multiplicities, ordered by descending count, ties in
  first-appearance order; `.value_counts().sort_index()` is
  `value_counts_sortIndex` (ascending by key);
* `pd.to_numeric(…, errors='coerce')` on a string cell is
  `to_numeric_str`: a decimal-literal parser (optional sign, integer
  and/or fractional digits, optional exponent), `none` on anything
  else; `.replace(',', '.', regex=True)` is `replaceCommas`;
* plotly figure construction keeps only the data-bearing parts
  (labels/values/x/y, number of histogram bins, annotation text,
  title); colours and pixel sizes are elided presentation.
-/

/-- A dataframe cell: `none` models pandas `NaN`/missing. -/
abbrev Cell := Option String

/-- The non-missing entries of a column, in row order. -/
def nonMissing (col : List Cell) : List String := col.filterMap id

/-- Value of a digit string, most significant first. -/
def digitsToNat (ds : List Char) : Nat :=
  ds.foldl (fun a c => 10 * a + (c.toNat - 48)) 0

/-- Parse an exponent's digits with optional sign ("+12", "-3", "4"). -/
def parseExpDigits (cs : List Char) : Option Int :=
  match cs with
  | '+' :: r => if r.isEmpty || !(r.all Char.isDigit) then none else some ((digitsToNat r : Int))
  | '-' :: r => if r.isEmpty || !(r.all Char.isDigit) then none else some (-(digitsToNat r : Int))
  | r => if r.isEmpty || !(r.all Char.isDigit) then none else some ((digitsToNat r : Int))

/-- Parse the optional exponent suffix (empty, or `e`/`E` then digits). -/
def parseExpPart (cs : List Char) : Option Int :=
  match cs with
  | [] => some 0
  | 'e' :: r => parseExpDigits r
  | 'E' :: r => parseExpDigits r
  | _ => none

/-- Parse an unsigned decimal mantissa (`12`, `12.`, `.5`, `12.5`),
returning its value and the unconsumed suffix. -/
def parseUnsigned (cs : List Char) : Option (ℚ × List Char) :=
  let ip := cs.takeWhile Char.isDigit
  let rest := cs.dropWhile Char.isDigit
  match rest with
  | '.' :: rest2 =>
    let fp := rest2.takeWhile Char.isDigit
    let rest3 := rest2.dropWhile Char.isDigit
    if ip.isEmpty && fp.isEmpty then none
    else some ((digitsToNat ip : ℚ) + (digitsToNat fp : ℚ) / ((10 : ℚ) ^ fp.length), rest3)
  | _ => if ip.isEmpty then none else some ((digitsToNat ip : ℚ), rest)

/-- Parse a full signed decimal literal with optional exponent. -/
def parseNumChars (cs : List Char) : Option ℚ :=
  let sgn : ℚ × List Char :=
    match cs with
    | '+' :: r => (1, r)
    | '-' :: r => (-1, r)
    | r => (1, r)
  match parseUnsigned sgn.2 with
  | none => none
  | some (mag, rest) =>
    match parseExpPart rest with
    | none => none
    | some e => some (sgn.1 * mag * (10 : ℚ) ^ e)

/-- Model of `pd.to_numeric(cell, errors='coerce')` on a string cell:
surrounding whitespace is ignored, non-numeric strings give `none`. -/
def to_numeric_str (s : String) : Option ℚ := parseNumChars s.trim.data

/-- Model of `.replace(',', '.', regex=True)`: every comma character of
the string is replaced by a dot. -/
def replaceCommas (s : String) : String :=
  String.mk (s.data.map (fun c => if c = ',' then '.' else c))

/-- The shared numeric-coercion pipeline
`pd.to_numeric(col.replace(',', '.', regex=True), errors='coerce').dropna()`:
missing cells and unparseable strings are dropped, the rest parsed. -/
def coerceColumn (col : List Cell) : List ℚ :=
  col.filterMap (fun c => c.bind (fun s => to_numeric_str (replaceCommas s)))

/-- First occurrences of the elements of a list, skipping `seen`. -/
def firstOccsAux {α : Type} [DecidableEq α] (seen : List α) : List α → List α
  | [] => []
  | a :: l => if a ∈ seen then firstOccsAux seen l else a :: firstOccsAux (a :: seen) l

/-- The distinct elements of a list in first-appearance order. -/
def firstOccs {α : Type} [DecidableEq α] (l : List α) : List α := firstOccsAux [] l

/-- Model of `Series.value_counts()`: each distinct value paired with
its multiplicity, sorted by descending count (stable, so ties keep
first-appearance order). -/
def value_counts {α : Type} [DecidableEq α] (l : List α) : List (α × Nat) :=
  List.insertionSort (fun p q => q.2 ≤ p.2)
    ((firstOccs l).map (fun v => (v, l.count v)))

/-- Model of `Series.value_counts().sort_index()`: distinct values with
multiplicities, sorted ascending by value. -/
def value_counts_sortIndex (l : List ℚ) : List (ℚ × Nat) :=
  List.insertionSort (fun p q => p.1 ≤ q.1)
    ((firstOccs l).map (fun v => (v, l.count v)))

/-- Model of `counts.get(key, 0)` on a value-counts series. -/
def lookupCount (k : String) (counts : List (String × Nat)) : Nat :=
  match counts.find? (fun p => p.1 == k) with
  | some p => p.2
  | none => 0

/-- The `", ".join(f"{k}: {int(v)}" …)` summary string. -/
def joinCounts (counts : List (String × Nat)) : String :=
  String.intercalate (", ") (counts.map (fun p => p.1 ++ ": " ++ toString p.2))

/-- Round a rational to the nearest integer, ties to even
(the rounding of Python's `round` and numpy's `Series.round`). -/
def rhe (q : ℚ) : Int :=
  let f := Int.floor q
  let r := q - (f : ℚ)
  if r < 1 / 2 then f
  else if 1 / 2 < r then f + 1
  else if f % 2 = 0 then f else f + 1

/-- Model of Python `round(q, k)` as an exact rational. -/
def pyRound (k : Nat) (q : ℚ) : ℚ := ((rhe (q * (10 : ℚ) ^ k) : ℚ)) / (10 : ℚ) ^ k

/-- Left-pad a digit list with zeros to width `k`. -/
def padZeros (k : Nat) (ds : List Char) : List Char :=
  List.replicate (k - ds.length) '0' ++ ds

/-- Drop trailing zeros but keep at least one digit. -/
def stripTrailing (ds : List Char) : List Char :=
  let r := ds.reverse.dropWhile (fun c => c = '0')
  if r.isEmpty then ['0'] else r.reverse

/-- Decimal rendering of the integer `m / 10^k` with `k` fractional
digits, trailing zeros stripped, at least one kept ("60.0", "1.5"). -/
def fmtFixed (k : Nat) (m : Int) : String :=
  (if m < 0 then ("-" : String) else ("" : String)) ++
    toString (m.natAbs / 10 ^ k) ++ "." ++
    String.mk (stripTrailing (padZeros k (toString (m.natAbs % 10 ^ k)).data))

/-- Python float repr of `round(q, k)` as printed inside the summary
f-strings. -/
def pyRoundStr (k : Nat) (q : ℚ) : String := fmtFixed k (rhe (q * (10 : ℚ) ^ k))

/-- Python float repr of an exact decimal rational (used for the raw
x-values in the backup-duration summary). -/
def fmtFloatQ (q : ℚ) : String :=
  if q.den = 1 then (if q.num < 0 then ("-" : String) else ("" : String)) ++ toString q.num.natAbs ++ ".0"
  else
    match (List.range 18).find? (fun k => (q * (10 : ℚ) ^ (k + 1)).den = 1) with
    | some k => fmtFixed (k + 1) (q * (10 : ℚ) ^ (k + 1)).num
    | none => toString q.num ++ "/" ++ toString q.den

/-- Minimum of a numeric series (only used on non-empty data). -/
def minQ : List ℚ → ℚ
  | [] => 0
  | x :: xs => xs.foldl (fun a b => min a b) x

/-- Maximum of a numeric series (only used on non-empty data). -/
def maxQ : List ℚ → ℚ
  | [] => 0
  | x :: xs => xs.foldl (fun a b => max a b) x

/-- pandas `Series.median()`: middle of the sorted values, or the mean
of the two middle values for even length. -/
def medianQ (l : List ℚ) : ℚ :=
  let s := List.insertionSort (fun a b => a ≤ b) l
  if s.length % 2 = 1 then s.getD (s.length / 2) 0
  else (s.getD (s.length / 2 - 1) 0 + s.getD (s.length / 2) 0) / 2

/-- pandas `Series.mean()`. -/
def meanQ (l : List ℚ) : ℚ := l.sum / (l.length : ℚ)

/-- The data-bearing content of one plotly figure. -/
inductive Chart : Type where
  | pie (labels : List String) (values : List Nat) (hole : ℚ) (title : String)
  | bar (x : List String) (y : List Nat) (title : String)
  | barNum (x : List ℚ) (y : List Nat) (title : String)
  | hbar (ylabels : List String) (x : List Nat) (title : String)
  | histogram (x : List ℚ) (nbinsx : Nat) (title : String)
  | emptyFig (text : String) (title : String)
  deriving DecidableEq, Repr

/-- Sum of the counts a categorical chart displays. -/
def Chart.valuesSum : Chart → Nat
  | .pie _ v _ _ => v.sum
  | .bar _ y _ => y.sum
  | .barNum _ y _ => y.sum
  | .hbar _ x _ => x.sum
  | .histogram _ _ _ => 0
  | .emptyFig _ _ => 0

/-- The category labels a categorical chart displays. -/
def Chart.catLabels : Chart → List String
  | .pie ls _ _ _ => ls
  | .bar x _ _ => x
  | .barNum _ _ _ => []
  | .hbar ys _ _ => ys
  | .histogram _ _ _ => []
  | .emptyFig _ _ => []

/-- Block 1 of `create_all_charts`: region pie.  `idxmax`/`max` on an
empty value-counts series raises, modelled by `none`. -/
def chart1_region (col : List Cell) : Option (Chart × String) :=
  match value_counts (nonMissing col) with
  | [] => none
  | top :: rest =>
    some (Chart.pie ((top :: rest).map Prod.fst) ((top :: rest).map Prod.snd) ((4 : ℚ) / 10)
        ("Region distribution (n=" ++ toString (((top :: rest).map Prod.snd).sum) ++ ")"),
      "Top region: " ++ top.1 ++ " (" ++
        pyRoundStr 1 (100 * (top.2 : ℚ) / ((((top :: rest).map Prod.snd).sum : ℚ))) ++
        "%). Total regions: " ++ toString (top :: rest).length ++ ".")

/-- Block 2 of `create_all_charts`: connection-type pie. -/
def chart2_conn (col : List Cell) : Option (Chart × String) :=
  match value_counts (nonMissing col) with
  | [] => none
  | top :: rest =>
    some (Chart.pie ((top :: rest).map Prod.fst) ((top :: rest).map Prod.snd) ((4 : ℚ) / 10)
        ("Internet connection type"),
      "Most common connection: " ++ top.1 ++ " (" ++
        pyRoundStr 1 (100 * (top.2 : ℚ) / ((((top :: rest).map Prod.snd).sum : ℚ))) ++ "%).")

/-- Block 3 of `create_all_charts`: stability pie; the figure is built
unconditionally, the summary is guarded by `len(counts) >= 1`. -/
def chart3_stability (col : List Cell) : Chart × String :=
  (Chart.pie ((value_counts (nonMissing col)).map Prod.fst)
      ((value_counts (nonMissing col)).map Prod.snd) ((4 : ℚ) / 10)
      ("Connection stability rating"),
    match value_counts (nonMissing col) with
    | [] => "No stability data."
    | top :: rest =>
      "Majority rated: " ++ top.1 ++ " (" ++
        pyRoundStr 1 (100 * (top.2 : ℚ) / ((((top :: rest).map Prod.snd).sum : ℚ))) ++ "%).")

/-- Block 4 of `create_all_charts`: hours-without-internet histogram or
placeholder; note the middle branch tests `s_hours.sum() == 0`. -/
def chart4_hours (col : List Cell) : Chart × String :=
  if (coerceColumn col).length = 0 then
    (Chart.emptyFig ("No data") ("Hours without internet (per day)"),
      "All responses are zero or missing.")
  else if (coerceColumn col).sum = 0 then
    (Chart.emptyFig ("All respondents reported 0 hours per day without internet")
        ("Hours without internet (per day)"),
      "All respondents reported 0 hours without internet.")
  else
    (Chart.histogram (coerceColumn col) 10 ("Hours without internet (per day)"),
      "Median: " ++ pyRoundStr 2 (medianQ (coerceColumn col)) ++ " h; Mean: " ++
        pyRoundStr 2 (meanQ (coerceColumn col)) ++ " h.")

/-- Block 5 of `create_all_charts`: outage-frequency bar with a
comma-joined category:count summary. -/
def chart5_outage_freq (col : List Cell) : Chart × String :=
  (Chart.bar ((value_counts (nonMissing col)).map Prod.fst)
      ((value_counts (nonMissing col)).map Prod.snd) ("Power outage frequency"),
    joinCounts (value_counts (nonMissing col)))

/-- Block 6 of `create_all_charts`: outage-duration bar or placeholder.
`s_duration = s_duration_all[s_duration_all > 0]`; the first branch
tests the unfiltered series, the second the positive one. -/
def chart6_outage_duration (col : List Cell) : Chart × String :=
  if (coerceColumn col).length = 0 then
    (Chart.emptyFig ("No data available for outage duration") ("Outage duration (hours)"),
      "No outage duration data.")
  else if ((coerceColumn col).filter (fun x => decide (0 < x))).length = 0 then
    (Chart.emptyFig ("All respondents reported 0 hours (no outages or zero-duration)")
        ("Outage duration (hours)"),
      "All durations are zero.")
  else
    (Chart.barNum
        ((value_counts_sortIndex (((coerceColumn col).filter (fun x => decide (0 < x))).map (pyRound 3))).map Prod.fst)
        ((value_counts_sortIndex (((coerceColumn col).filter (fun x => decide (0 < x))).map (pyRound 3))).map Prod.snd)
        ("Outage duration (hours)"),
      "min=" ++ pyRoundStr 3 (minQ ((coerceColumn col).filter (fun x => decide (0 < x)))) ++
        "h, median=" ++ pyRoundStr 3 (medianQ ((coerceColumn col).filter (fun x => decide (0 < x)))) ++
        "h, max=" ++ pyRoundStr 3 (maxQ ((coerceColumn col).filter (fun x => decide (0 < x)))) ++ "h")

/-- Block 7 of `create_all_charts`: backup-availability pie; the share
division is guarded by `if int(backup_counts.sum()) else 0`. -/
def chart7_backup (col : List Cell) : Chart × String :=
  (Chart.pie ((value_counts (nonMissing col)).map Prod.fst)
      ((value_counts (nonMissing col)).map Prod.snd) ((4 : ℚ) / 10)
      ("Backup power availability"),
    "Yes: " ++ toString (lookupCount ("Yes") (value_counts (nonMissing col))) ++ " (" ++
      (if (((value_counts (nonMissing col)).map Prod.snd).sum) = 0 then ("0" : String)
       else pyRoundStr 1 (100 * ((lookupCount ("Yes") (value_counts (nonMissing col))) : ℚ) /
         ((((value_counts (nonMissing col)).map Prod.snd).sum : ℚ)))) ++
      "%), No: " ++ toString (lookupCount ("No") (value_counts (nonMissing col))) ++ ".")

/-- The backup-type filter
`(index != '-') & (index.str.strip() != '')` as a Bool predicate on a
category label. -/
def keepBackupType (v : String) : Bool := !(v == "-") && !(v.trim == "")

/-- Block 8 of `create_all_charts`: backup-type horizontal bar; `"-"`
and blank categories are filtered out of the counts, and the chart is
appended only when a category remains. -/
def chart8_backup_type (col : List Cell) : Option (Chart × String) :=
  if ((value_counts (nonMissing col)).filter (fun p => keepBackupType p.1)).length > 0 then
    some (Chart.hbar
        (((value_counts (nonMissing col)).filter (fun p => keepBackupType p.1)).map Prod.fst)
        (((value_counts (nonMissing col)).filter (fun p => keepBackupType p.1)).map Prod.snd)
        ("Types of backup power (actual users)"),
      joinCounts ((value_counts (nonMissing col)).filter (fun p => keepBackupType p.1)))
  else none

/-- Block 9 of `create_all_charts`: backup-duration bar; coercion, then
`df[df > 0].dropna()`, chart appended only when data remains.  The
surrounding `try/except Exception: pass` cannot fire in this model
(coercion is total), so omission happens exactly when no positive value
remains. -/
def chart9_backup_duration (col : List Cell) : Option (Chart × String) :=
  if ((coerceColumn col).filter (fun x => decide (0 < x))).length > 0 then
    some (Chart.barNum
        ((value_counts_sortIndex ((coerceColumn col).filter (fun x => decide (0 < x)))).map Prod.fst)
        ((value_counts_sortIndex ((coerceColumn col).filter (fun x => decide (0 < x)))).map Prod.snd)
        ("Backup power duration (hours) (actual users)"),
      String.intercalate (", ")
        ((value_counts_sortIndex ((coerceColumn col).filter (fun x => decide (0 < x)))).map
          (fun p => fmtFloatQ p.1 ++ "h: " ++ toString p.2)))
  else none

/-- Block 10 of `create_all_charts`: device-type pie. -/
def chart10_device (col : List Cell) : Chart × String :=
  (Chart.pie ((value_counts (nonMissing col)).map Prod.fst)
      ((value_counts (nonMissing col)).map Prod.snd) ((4 : ℚ) / 10)
      ("Available device type"),
    joinCounts (value_counts (nonMissing col)))

/-- Block 11 of `create_all_charts`: separate-workplace pie. -/
def chart11_workplace (col : List Cell) : Chart × String :=
  (Chart.pie ((value_counts (nonMissing col)).map Prod.fst)
      ((value_counts (nonMissing col)).map Prod.snd) ((4 : ℚ) / 10)
      ("Separate workplace at home"),
    joinCounts (value_counts (nonMissing col)))

/-- Block 12 of `create_all_charts`: accessories pie. -/
def chart12_accessories (col : List Cell) : Chart × String :=
  (Chart.pie ((value_counts (nonMissing col)).map Prod.fst)
      ((value_counts (nonMissing col)).map Prod.snd) ((4 : ℚ) / 10)
      ("Accessories availability"),
    joinCounts (value_counts (nonMissing col)))

/-- Block 13 of `create_all_charts`: ergonomics bar. -/
def chart13_ergonomic (col : List Cell) : Chart × String :=
  (Chart.bar ((value_counts (nonMissing col)).map Prod.fst)
      ((value_counts (nonMissing col)).map Prod.snd) ("Workplace ergonomics"),
    joinCounts (value_counts (nonMissing col)))

/-- The thirteen question columns of the loaded survey dataframe. -/
structure Table where
  region : List Cell
  conn : List Cell
  stability : List Cell
  hours : List Cell
  outageFreq : List Cell
  outageDuration : List Cell
  backupYes : List Cell
  backupType : List Cell
  backupDuration : List Cell
  device : List Cell
  workplace : List Cell
  accessories : List Cell
  ergonomic : List Cell

/-- `create_all_charts`: the thirteen derivations in order.  A raised
exception (blocks 1-2 on an empty counts series) aborts the whole run
(`none`); blocks 8 and 9 are conditionally omitted. -/
def create_all_charts (t : Table) : Option (List (Chart × String)) := do
  let c1 ← chart1_region t.region
  let c2 ← chart2_conn t.conn
  let c3 := chart3_stability t.stability
  let c4 := chart4_hours t.hours
  let c5 := chart5_outage_freq t.outageFreq
  let c6 := chart6_outage_duration t.outageDuration
  let c7 := chart7_backup t.backupYes
  let c8 := chart8_backup_type t.backupType
  let c9 := chart9_backup_duration t.backupDuration
  let c10 := chart10_device t.device
  let c11 := chart11_workplace t.workplace
  let c12 := chart12_accessories t.accessories
  let c13 := chart13_ergonomic t.ergonomic
  some ([c1, c2, c3, c4, c5, c6, c7] ++ c8.toList ++ c9.toList ++ [c10, c11, c12, c13])

/-- Spec-side quantity: the largest category count of a value-counts
series (the `max_count` of the percentage formula). -/
def maxCount (counts : List (String × Nat)) : Nat :=
  (counts.map Prod.snd).foldr max 0

instance instTotalSndDesc {α : Type} : IsTotal (α × Nat) (fun p q => q.2 ≤ p.2) :=
  ⟨fun a b => Nat.le_total b.2 a.2⟩

instance instTransSndDesc {α : Type} : IsTrans (α × Nat) (fun p q => q.2 ≤ p.2) :=
  ⟨fun _ _ _ h1 h2 => le_trans h2 h1⟩

instance instTotalFstAsc : IsTotal (ℚ × Nat) (fun p q => p.1 ≤ q.1) :=
  ⟨fun a b => le_total a.1 b.1⟩

instance instTransFstAsc : IsTrans (ℚ × Nat) (fun p q => p.1 ≤ q.1) :=
  ⟨fun _ _ _ h1 h2 => le_trans h1 h2⟩

/-- Concrete hours column on which nothing parses. -/
def colHoursNoData : List Cell := [some ("x"), none]

/-- Concrete hours column whose parsed values are all zero. -/
def colHoursZero : List Cell := [some ("0"), some ("0,0")]

/-- Concrete hours column with a nonzero sum. -/
def colHoursPos : List Cell := [some ("1"), some ("2,5")]

/-- Concrete hours column with values -1 and 1: not all zero, yet the
sum is zero. -/
def colHoursCancel : List Cell := [some ("-1"), some ("1")]

/-- Concrete outage-duration column of empty strings (the spec's
all-empty-strings CSV scenario: empty fields parse to nothing). -/
def colDurEmpty : List Cell := [some (""), some (""), none]

/-- Concrete outage-duration column whose parsed values are all
non-positive. -/
def colDurZero : List Cell := [some ("0"), some ("-2")]

/-- Concrete outage-duration column with positive values. -/
def colDurPos : List Cell := [some ("0"), some ("1,5"), some ("1.5"), some ("2")]

/-- Concrete backup-type column with placeholder and blank entries. -/
def colBackupTypeW : List Cell :=
  [some ("-"), some ("  "), some ("Generator"), some ("Generator"), some ("UPS"), none]

/-- Concrete backup-type column with only placeholder/blank entries. -/
def colBackupTypeEmpty : List Cell := [some ("-"), some ("  ")]

/-- Concrete backup-availability column with 6 Yes and 4 No. -/
def colBackupYesW : List Cell :=
  [some ("Yes"), some ("No"), some ("Yes"), some ("Yes"), some ("No"), some ("Yes"),
    some ("No"), some ("Yes"), some ("Yes"), some ("No")]

/-- Concrete device column realising counts A(5), B(3), C(2) with the
categories appearing in input order C, B, A. -/
def colDeviceW : List Cell :=
  [some ("C"), some ("C"), some ("B"), some ("B"), some ("B"),
    some ("A"), some ("A"), some ("A"), some ("A"), some ("A")]

/-- Concrete backup-duration column. -/
def colBackupDurW : List Cell := [some ("2"), some ("1,5"), some ("0"), some ("x"), none]

/-- Concrete all-missing column. -/
def colAllMissing : List Cell := [none, none]

/-- Concrete region column. -/
def colRegionW : List Cell := [some ("Kyiv"), some ("Kyiv"), some ("Lviv"), none]

/-- A fully populated survey table whose device column is entirely
missing. -/
def tableDeviceEmpty : Table :=
  ⟨[some ("North")], [some ("Fiber")], [some ("Stable")], [some ("1")], [some ("Rarely")],
    [some ("2")], [some ("Yes")], [some ("UPS")], [some ("3")], [none],
    [some ("Yes")], [some ("Yes")], [some ("Yes")]⟩

/-- A survey table whose region column is entirely missing. -/
def tableRegionEmpty : Table :=
  ⟨[none], [some ("Fiber")], [some ("Stable")], [some ("1")], [some ("Rarely")],
    [some ("2")], [some ("Yes")], [some ("UPS")], [some ("3")], [some ("Laptop")],
    [some ("Yes")], [some ("Yes")], [some ("Yes")]⟩

/-- A survey table whose connection-type column is entirely missing. -/
def tableConnEmpty : Table :=
  ⟨[some ("North")], [none], [some ("Stable")], [some ("1")], [some ("Rarely")],
    [some ("2")], [some ("Yes")], [some ("UPS")], [some ("3")], [some ("Laptop")],
    [some ("Yes")], [some ("Yes")], [some ("Yes")]⟩

theorem firstOccsAux_not_mem {α : Type} [DecidableEq α] (l : List α) :
    ∀ (seen : List α) (v : α), v ∈ firstOccsAux seen l → v ∉ seen := by
  induction l with
  | nil => intro seen v h; simp [firstOccsAux] at h
  | cons a t ih =>
    intro seen v h
    rw [firstOccsAux] at h
    by_cases ha : a ∈ seen
    · rw [if_pos ha] at h
      exact ih seen v h
    · rw [if_neg ha] at h
      rcases List.mem_cons.mp h with rfl | h2
      · exact ha
      · intro hs
        exact ih (a :: seen) v h2 (List.mem_cons_of_mem _ hs)

theorem nodup_firstOccsAux {α : Type} [DecidableEq α] (l : List α) :
    ∀ seen : List α, (firstOccsAux seen l).Nodup := by
  induction l with
  | nil => intro seen; simp [firstOccsAux]
  | cons a t ih =>
    intro seen
    rw [firstOccsAux]
    by_cases ha : a ∈ seen
    · rw [if_pos ha]; exact ih seen
    · rw [if_neg ha]
      refine List.nodup_cons.mpr ⟨fun hmem => ?_, ih (a :: seen)⟩
      exact firstOccsAux_not_mem t (a :: seen) a hmem (List.mem_cons_self a seen)

theorem nodup_firstOccs {α : Type} [DecidableEq α] (l : List α) : (firstOccs l).Nodup :=
  nodup_firstOccsAux l []

theorem toFinset_firstOccsAux {α : Type} [DecidableEq α] (l : List α) :
    ∀ seen : List α, (firstOccsAux seen l).toFinset = l.toFinset \ seen.toFinset := by
  induction l with
  | nil => intro seen; simp [firstOccsAux]
  | cons a t ih =>
    intro seen
    rw [firstOccsAux]
    by_cases ha : a ∈ seen
    · rw [if_pos ha, ih seen]
      ext x
      simp only [Finset.mem_sdiff, List.mem_toFinset, List.toFinset_cons, Finset.mem_insert]
      constructor
      · rintro ⟨hx, hns⟩
        exact ⟨Or.inr hx, hns⟩
      · rintro ⟨hx | hx, hns⟩
        · exact absurd (hx ▸ ha) hns
        · exact ⟨hx, hns⟩
    · rw [if_neg ha, List.toFinset_cons, ih (a :: seen)]
      ext x
      simp only [Finset.mem_insert, Finset.mem_sdiff, List.mem_toFinset, List.toFinset_cons,
        List.mem_cons]
      constructor
      · rintro (rfl | ⟨hx, hns⟩)
        · exact ⟨Or.inl rfl, ha⟩
        · exact ⟨Or.inr hx, fun hs => hns (Or.inr hs)⟩
      · rintro ⟨hx | hx, hns⟩
        · exact Or.inl hx
        · by_cases hxa : x = a
          · exact Or.inl hxa
          · refine Or.inr ⟨hx, ?_⟩
            rintro (h1 | h2)
            · exact hxa h1
            · exact hns h2

theorem toFinset_firstOccs {α : Type} [DecidableEq α] (l : List α) :
    (firstOccs l).toFinset = l.toFinset := by
  rw [firstOccs, toFinset_firstOccsAux l []]
  simp

theorem mem_firstOccs {α : Type} [DecidableEq α] (l : List α) {v : α} :
    v ∈ firstOccs l ↔ v ∈ l := by
  rw [← List.mem_toFinset, toFinset_firstOccs, List.mem_toFinset]

theorem sum_map_toFinset {α : Type} [DecidableEq α] (f : α → Nat) :
    ∀ {l : List α}, l.Nodup → (l.map f).sum = ∑ v in l.toFinset, f v := by
  intro l
  induction l with
  | nil => simp
  | cons a t ih =>
    intro h
    rcases List.nodup_cons.mp h with ⟨ha, ht⟩
    rw [List.map_cons, List.sum_cons, List.toFinset_cons,
      Finset.sum_insert (mt List.mem_toFinset.mp ha), ih ht]

theorem sum_count_firstOccs_filter {α : Type} [DecidableEq α] (l : List α) (P : α → Bool) :
    (((firstOccs l).filter P).map (fun v => l.count v)).sum = (l.filter P).length := by
  rw [sum_map_toFinset (fun v => l.count v) ((nodup_firstOccs l).filter P)]
  rw [List.toFinset_filter, toFinset_firstOccs]
  rw [← List.sum_toFinset_count_eq_length (l.filter P), List.toFinset_filter]
  refine Finset.sum_congr rfl fun x hx => ?_
  rw [Finset.mem_filter] at hx
  exact (List.count_filter hx.2).symm

theorem sum_valueCounts_filter {α : Type} [DecidableEq α] (l : List α) (P : α → Bool) :
    (((value_counts l).filter (fun p => P p.1)).map Prod.snd).sum = (l.filter P).length := by
  have hperm : List.Perm (((value_counts l).filter (fun p => P p.1)).map Prod.snd)
      ((((firstOccs l).map (fun v => (v, l.count v))).filter (fun p => P p.1)).map Prod.snd) :=
    ((List.perm_insertionSort _ _).filter _).map _
  rw [hperm.sum_eq, List.filter_map, List.map_map]
  have h1 : ((fun p : α × Nat => P p.1) ∘ fun v => (v, l.count v)) = P := rfl
  have h2 : (Prod.snd ∘ fun v : α => (v, l.count v)) = fun v => l.count v := rfl
  rw [h1, h2]
  exact sum_count_firstOccs_filter l P

theorem sum_valueCounts {α : Type} [DecidableEq α] (l : List α) :
    ((value_counts l).map Prod.snd).sum = l.length := by
  have h := sum_valueCounts_filter l (fun _ => true)
  simpa using h

theorem sorted_valueCounts {α : Type} [DecidableEq α] (l : List α) :
    List.Sorted (fun p q => q.2 ≤ p.2) (value_counts l) :=
  List.sorted_insertionSort _ _

theorem sorted_valueCounts_sortIndex (l : List ℚ) :
    List.Sorted (fun p q => p.1 ≤ q.1) (value_counts_sortIndex l) :=
  List.sorted_insertionSort _ _

theorem foldr_max_le {m : Nat} : ∀ {xs : List Nat}, (∀ x ∈ xs, x ≤ m) → xs.foldr max 0 ≤ m := by
  intro xs
  induction xs with
  | nil => intro _; exact Nat.zero_le m
  | cons a t ih =>
    intro h
    rw [List.foldr_cons]
    exact max_le (h a (List.mem_cons_self a t)) (ih fun x hx => h x (List.mem_cons_of_mem a hx))

theorem maxCount_of_sorted_head {l : List String} {top : String × Nat} {rest : List (String × Nat)}
    (h : value_counts l = top :: rest) : maxCount (value_counts l) = top.2 := by
  have hs : List.Sorted (fun p q : String × Nat => q.2 ≤ p.2) (top :: rest) :=
    h ▸ sorted_valueCounts l
  have hb : ∀ p ∈ rest, p.2 ≤ top.2 := List.rel_of_sorted_cons hs
  rw [maxCount, h, List.map_cons, List.foldr_cons]
  have hle : (rest.map Prod.snd).foldr max 0 ≤ top.2 := by
    refine foldr_max_le fun x hx => ?_
    rcases List.mem_map.mp hx with ⟨p, hp, rfl⟩
    exact hb p hp
  exact max_eq_left hle

theorem mem_valueCounts {α : Type} [DecidableEq α] {l : List α} {p : α × Nat}
    (h : p ∈ value_counts l) : p.1 ∈ l ∧ p.2 = l.count p.1 := by
  have hm := (List.perm_insertionSort (fun p q : α × Nat => q.2 ≤ p.2) _).mem_iff.mp h
  rcases List.mem_map.mp hm with ⟨v, hv, rfl⟩
  exact ⟨(mem_firstOccs l).mp hv, rfl⟩

theorem count_mem_valueCounts {α : Type} [DecidableEq α] {l : List α} {k : α} (h : k ∈ l) :
    (k, l.count k) ∈ value_counts l := by
  refine (List.perm_insertionSort (fun p q : α × Nat => q.2 ≤ p.2) _).mem_iff.mpr ?_
  exact List.mem_map.mpr ⟨k, (mem_firstOccs l).mpr h, rfl⟩

theorem mem_valueCounts_sortIndex {l : List ℚ} {p : ℚ × Nat}
    (h : p ∈ value_counts_sortIndex l) : p.1 ∈ l ∧ p.2 = l.count p.1 := by
  have hm := (List.perm_insertionSort (fun p q : ℚ × Nat => p.1 ≤ q.1) _).mem_iff.mp h
  rcases List.mem_map.mp hm with ⟨v, hv, rfl⟩
  exact ⟨(mem_firstOccs l).mp hv, rfl⟩

theorem valueCounts_eq_nil {α : Type} [DecidableEq α] (l : List α) :
    value_counts l = [] ↔ l = [] := by
  constructor
  · intro h
    cases l with
    | nil => rfl
    | cons a t =>
      exfalso
      have hmem := count_mem_valueCounts (l := a :: t) (k := a) (List.mem_cons_self a t)
      rw [h] at hmem
      exact List.not_mem_nil _ hmem
  · intro h
    subst h
    rfl

theorem lookupCount_valueCounts (l : List String) (k : String) :
    lookupCount k (value_counts l) = l.count k := by
  rw [lookupCount]
  cases hf : (value_counts l).find? (fun p => p.1 == k) with
  | none =>
    by_cases hk : k ∈ l
    · exfalso
      have hmem := count_mem_valueCounts hk
      have := List.find?_eq_none.mp hf _ hmem
      simp at this
    · simp [List.count_eq_zero.mpr hk]
  | some p =>
    have hp := List.find?_some hf
    have hmem := mem_valueCounts (List.mem_of_find?_eq_some hf)
    have hk : p.1 = k := by simpa using hp
    show p.2 = List.count k l
    rw [hmem.2, hk]


/-- C2: the hours-without-internet derivation is a three-way branch.
The claim's middle case reads "if every parsed value is numerically
zero"; the code actually tests `s_hours.sum() == 0`, so a column whose
parsed values cancel (e.g. -1 and 1) also yields the all-zero
placeholder rather than a histogram.  `C2_counterexample` exhibits
this; the theorem proves the branch structure amended to the sum test
(the every-value-zero case is still covered, last conjunct). -/
theorem C2_hours_branches (col : List Cell) :
    (coerceColumn col = [] → chart4_hours col =
      (Chart.emptyFig ("No data") ("Hours without internet (per day)"),
        "All responses are zero or missing.")) ∧
    (coerceColumn col ≠ [] → (coerceColumn col).sum = 0 → chart4_hours col =
      (Chart.emptyFig ("All respondents reported 0 hours per day without internet")
          ("Hours without internet (per day)"),
        "All respondents reported 0 hours without internet.")) ∧
    ((coerceColumn col).sum ≠ 0 → chart4_hours col =
      (Chart.histogram (coerceColumn col) 10 ("Hours without internet (per day)"),
        "Median: " ++ pyRoundStr 2 (medianQ (coerceColumn col)) ++ " h; Mean: " ++
          pyRoundStr 2 (meanQ (coerceColumn col)) ++ " h.")) ∧
    (coerceColumn col ≠ [] → (∀ q ∈ coerceColumn col, q = 0) → chart4_hours col =
      (Chart.emptyFig ("All respondents reported 0 hours per day without internet")
          ("Hours without internet (per day)"),
        "All respondents reported 0 hours without internet.")) := by
  have h1 : coerceColumn col = [] → chart4_hours col =
      (Chart.emptyFig ("No data") ("Hours without internet (per day)"),
        "All responses are zero or missing.") := by
    intro h
    simp [chart4_hours, h]
  have h2 : coerceColumn col ≠ [] → (coerceColumn col).sum = 0 → chart4_hours col =
      (Chart.emptyFig ("All respondents reported 0 hours per day without internet")
          ("Hours without internet (per day)"),
        "All respondents reported 0 hours without internet.") := by
    intro hne hsum
    have hlen : ¬(coerceColumn col).length = 0 := by
      simpa [List.length_eq_zero] using hne
    simp [chart4_hours, hlen, hsum]
  have h3 : (coerceColumn col).sum ≠ 0 → chart4_hours col =
      (Chart.histogram (coerceColumn col) 10 ("Hours without internet (per day)"),
        "Median: " ++ pyRoundStr 2 (medianQ (coerceColumn col)) ++ " h; Mean: " ++
          pyRoundStr 2 (meanQ (coerceColumn col)) ++ " h.") := by
    intro hsum
    have hne : coerceColumn col ≠ [] := by
      intro h
      exact hsum (by simp [h])
    have hlen : ¬(coerceColumn col).length = 0 := by
      simpa [List.length_eq_zero] using hne
    simp [chart4_hours, hlen, hsum]
  exact ⟨h1, h2, h3, fun hne hz => h2 hne (List.sum_eq_zero hz)⟩

/-- C2 counterexample: on the column ["-1", "1"] the parsed values are
not all zero, yet the code produces the all-zero placeholder, not the
histogram the claim's "otherwise" branch demands. -/
theorem C2_counterexample :
    (chart4_hours colHoursCancel).1 =
      Chart.emptyFig ("All respondents reported 0 hours per day without internet")
        ("Hours without internet (per day)") ∧
    ¬(∀ q ∈ coerceColumn colHoursCancel, q = 0) := by
  with_unfolding_all decide

/-- C2 witness: the three branches realised on concrete columns. -/
theorem C2_hours_branches_witness :
    chart4_hours colHoursNoData =
      (Chart.emptyFig ("No data") ("Hours without internet (per day)"),
        "All responses are zero or missing.") ∧
    chart4_hours colHoursZero =
      (Chart.emptyFig ("All respondents reported 0 hours per day without internet")
          ("Hours without internet (per day)"),
        "All respondents reported 0 hours without internet.") ∧
    chart4_hours colHoursPos =
      (Chart.histogram (coerceColumn colHoursPos) 10 ("Hours without internet (per day)"),
        "Median: " ++ pyRoundStr 2 (medianQ (coerceColumn colHoursPos)) ++ " h; Mean: " ++
          pyRoundStr 2 (meanQ (coerceColumn colHoursPos)) ++ " h.") :=
  ⟨(C2_hours_branches colHoursNoData).1 (by with_unfolding_all decide),
    (C2_hours_branches colHoursZero).2.1 (by with_unfolding_all decide)
      (by with_unfolding_all decide),
    (C2_hours_branches colHoursPos).2.2.1 (by with_unfolding_all decide)⟩

/-- C3: outage-duration branch structure: a column with nothing
parseable gives the "No outage duration data." placeholder, a parseable
but all-non-positive column gives the all-zero placeholder (so
non-positive rows still count toward the has-any-data check), and
otherwise a bar chart over the positive values rounded to 3 decimals
with a min/median/max summary; every displayed x-value is the
3-decimal rounding of some positive parsed entry. -/
theorem C3_outage_duration (col : List Cell) :
    (coerceColumn col = [] → chart6_outage_duration col =
      (Chart.emptyFig ("No data available for outage duration") ("Outage duration (hours)"),
        "No outage duration data.")) ∧
    (coerceColumn col ≠ [] → (∀ q ∈ coerceColumn col, q ≤ 0) → chart6_outage_duration col =
      (Chart.emptyFig ("All respondents reported 0 hours (no outages or zero-duration)")
          ("Outage duration (hours)"),
        "All durations are zero.")) ∧
    ((coerceColumn col).filter (fun x => decide (0 < x)) ≠ [] → chart6_outage_duration col =
      (Chart.barNum
          ((value_counts_sortIndex (((coerceColumn col).filter (fun x => decide (0 < x))).map (pyRound 3))).map Prod.fst)
          ((value_counts_sortIndex (((coerceColumn col).filter (fun x => decide (0 < x))).map (pyRound 3))).map Prod.snd)
          ("Outage duration (hours)"),
        "min=" ++ pyRoundStr 3 (minQ ((coerceColumn col).filter (fun x => decide (0 < x)))) ++
          "h, median=" ++ pyRoundStr 3 (medianQ ((coerceColumn col).filter (fun x => decide (0 < x)))) ++
          "h, max=" ++ pyRoundStr 3 (maxQ ((coerceColumn col).filter (fun x => decide (0 < x)))) ++ "h")) ∧
    (∀ x ∈ (value_counts_sortIndex (((coerceColumn col).filter (fun x => decide (0 < x))).map (pyRound 3))).map Prod.fst,
      ∃ q ∈ coerceColumn col, 0 < q ∧ x = pyRound 3 q) := by
  refine ⟨?_, ?_, ?_, ?_⟩
  · intro h
    simp [chart6_outage_duration, h]
  · intro hne hnp
    have hlen : ¬(coerceColumn col).length = 0 := by
      simpa [List.length_eq_zero] using hne
    have hfil : (coerceColumn col).filter (fun x => decide (0 < x)) = [] := by
      rw [List.filter_eq_nil_iff]
      intro a ha
      simpa using not_lt.mpr (hnp a ha)
    simp [chart6_outage_duration, hlen, hfil]
  · intro hpos
    have hne : coerceColumn col ≠ [] := by
      intro h
      apply hpos
      rw [h]
      rfl
    have hlen : ¬(coerceColumn col).length = 0 := by
      simpa [List.length_eq_zero] using hne
    have hflen : ¬((coerceColumn col).filter (fun x => decide (0 < x))).length = 0 := by
      simpa [List.length_eq_zero] using hpos
    simp [chart6_outage_duration, hlen, hflen]
  · intro x hx
    rcases List.mem_map.mp hx with ⟨p, hp, rfl⟩
    have hm := (mem_valueCounts_sortIndex hp).1
    rcases List.mem_map.mp hm with ⟨q, hq, he⟩
    have hq2 := List.mem_filter.mp hq
    exact ⟨q, hq2.1, by simpa using hq2.2, he.symm⟩

/-- C3 witness: the branches realised on concrete columns, including
the spec's all-empty-strings CSV scenario. -/
theorem C3_outage_duration_witness :
    chart6_outage_duration colDurEmpty =
      (Chart.emptyFig ("No data available for outage duration") ("Outage duration (hours)"),
        "No outage duration data.") ∧
    chart6_outage_duration colDurZero =
      (Chart.emptyFig ("All respondents reported 0 hours (no outages or zero-duration)")
          ("Outage duration (hours)"),
        "All durations are zero.") ∧
    chart6_outage_duration colDurPos =
      (Chart.barNum
          ((value_counts_sortIndex (((coerceColumn colDurPos).filter (fun x => decide (0 < x))).map (pyRound 3))).map Prod.fst)
          ((value_counts_sortIndex (((coerceColumn colDurPos).filter (fun x => decide (0 < x))).map (pyRound 3))).map Prod.snd)
          ("Outage duration (hours)"),
        "min=" ++ pyRoundStr 3 (minQ ((coerceColumn colDurPos).filter (fun x => decide (0 < x)))) ++
          "h, median=" ++ pyRoundStr 3 (medianQ ((coerceColumn colDurPos).filter (fun x => decide (0 < x)))) ++
          "h, max=" ++ pyRoundStr 3 (maxQ ((coerceColumn colDurPos).filter (fun x => decide (0 < x)))) ++ "h") :=
  ⟨(C3_outage_duration colDurEmpty).1 (by with_unfolding_all decide),
    (C3_outage_duration colDurZero).2.1 (by with_unfolding_all decide)
      (by with_unfolding_all decide),
    (C3_outage_duration colDurPos).2.2.1 (by with_unfolding_all decide)⟩

/-- C4: backup-type categories equal to "-" or blank after trimming are
excluded before counting, never appearing in the chart or its summary,
and the chart is emitted exactly when a category survives the
exclusion. -/
theorem C4_backup_type (col : List Cell) :
    (∀ p ∈ (value_counts (nonMissing col)).filter (fun p => keepBackupType p.1),
      ¬(p.1 = "-") ∧ ¬(p.1.trim = "")) ∧
    ((value_counts (nonMissing col)).filter (fun p => keepBackupType p.1) ≠ [] →
      chart8_backup_type col = some (Chart.hbar
        (((value_counts (nonMissing col)).filter (fun p => keepBackupType p.1)).map Prod.fst)
        (((value_counts (nonMissing col)).filter (fun p => keepBackupType p.1)).map Prod.snd)
        ("Types of backup power (actual users)"),
        joinCounts ((value_counts (nonMissing col)).filter (fun p => keepBackupType p.1)))) ∧
    ((value_counts (nonMissing col)).filter (fun p => keepBackupType p.1) = [] →
      chart8_backup_type col = none) := by
  refine ⟨?_, ?_, ?_⟩
  · intro p hp
    have hk := (List.mem_filter.mp hp).2
    rw [keepBackupType] at hk
    rcases Bool.and_eq_true_iff.mp hk with ⟨h1, h2⟩
    constructor
    · intro h
      rw [h] at h1
      simp at h1
    · intro h
      rw [h] at h2
      simp at h2
  · intro hne
    have hlen : 0 < ((value_counts (nonMissing col)).filter (fun p => keepBackupType p.1)).length :=
      List.length_pos.mpr hne
    simp [chart8_backup_type, hlen]
  · intro hnil
    simp [chart8_backup_type, hnil]

/-- C4 witness: a column containing "-", a whitespace-only entry, and
real categories; and a column with only excluded entries. -/
theorem C4_backup_type_witness :
    chart8_backup_type colBackupTypeW = some (Chart.hbar
      (((value_counts (nonMissing colBackupTypeW)).filter (fun p => keepBackupType p.1)).map Prod.fst)
      (((value_counts (nonMissing colBackupTypeW)).filter (fun p => keepBackupType p.1)).map Prod.snd)
      ("Types of backup power (actual users)"),
      joinCounts ((value_counts (nonMissing colBackupTypeW)).filter (fun p => keepBackupType p.1))) ∧
    chart8_backup_type colBackupTypeEmpty = none :=
  ⟨(C4_backup_type colBackupTypeW).2.1 (by with_unfolding_all decide),
    (C4_backup_type colBackupTypeEmpty).2.2 (by with_unfolding_all decide)⟩

/-- C5: the backup-availability summary reports the Yes count with its
share and the No count, with missing keys defaulting to 0 (first
conjunct, via the category counts of the column); on any column with
exactly 6 Yes, 4 No and 10 non-missing responses the summary text is
exactly "Yes: 6 (60.0%), No: 4." (second conjunct). -/
theorem C5_backup_availability_summary (col : List Cell) :
    (chart7_backup col).2 = "Yes: " ++ toString ((nonMissing col).count ("Yes")) ++ " (" ++
      (if (nonMissing col).length = 0 then ("0" : String)
       else pyRoundStr 1 (100 * (((nonMissing col).count ("Yes") : ℚ)) /
         ((nonMissing col).length : ℚ))) ++
      "%), No: " ++ toString ((nonMissing col).count ("No")) ++ "." ∧
    ((nonMissing col).count ("Yes") = 6 → (nonMissing col).count ("No") = 4 →
      (nonMissing col).length = 10 →
      (chart7_backup col).2 = "Yes: 6 (60.0%), No: 4.") := by
  have key : (chart7_backup col).2 = "Yes: " ++ toString ((nonMissing col).count ("Yes")) ++
      " (" ++
      (if (nonMissing col).length = 0 then ("0" : String)
       else pyRoundStr 1 (100 * (((nonMissing col).count ("Yes") : ℚ)) /
         ((nonMissing col).length : ℚ))) ++
      "%), No: " ++ toString ((nonMissing col).count ("No")) ++ "." := by
    show ("Yes: " ++ toString (lookupCount ("Yes") (value_counts (nonMissing col))) ++ " (" ++
      (if (((value_counts (nonMissing col)).map Prod.snd).sum) = 0 then ("0" : String)
       else pyRoundStr 1 (100 * ((lookupCount ("Yes") (value_counts (nonMissing col))) : ℚ) /
         ((((value_counts (nonMissing col)).map Prod.snd).sum : ℚ)))) ++
      "%), No: " ++ toString (lookupCount ("No") (value_counts (nonMissing col))) ++ ".") = _
    rw [lookupCount_valueCounts, lookupCount_valueCounts, sum_valueCounts]
  refine ⟨key, fun h6 h4 h10 => ?_⟩
  rw [key, h6, h4, h10]
  with_unfolding_all decide

/-- C5 witness: the 6-Yes/4-No scenario on a concrete ten-row column. -/
theorem C5_backup_availability_summary_witness :
    (chart7_backup colBackupYesW).2 = "Yes: 6 (60.0%), No: 4." :=
  (C5_backup_availability_summary colBackupYesW).2 (by with_unfolding_all decide)
    (by with_unfolding_all decide) (by with_unfolding_all decide)

/-- C6: for every chart whose summary is the comma-joined
"category: count" list (outage frequency, backup type, device types,
workplace, accessories, ergonomics), the chart's categories and the
summary are both read off the value-counts series, which is sorted by
descending count; on the concrete device column with categories
arriving in input order C(2), B(3), A(5) the resulting order is A, B,
C. -/
theorem C6_descending_count_order (col : List Cell) :
    List.Sorted (fun p q : String × Nat => q.2 ≤ p.2) (value_counts (nonMissing col)) ∧
    chart10_device col = (Chart.pie ((value_counts (nonMissing col)).map Prod.fst)
        ((value_counts (nonMissing col)).map Prod.snd) ((4 : ℚ) / 10) ("Available device type"),
      joinCounts (value_counts (nonMissing col))) ∧
    chart5_outage_freq col = (Chart.bar ((value_counts (nonMissing col)).map Prod.fst)
        ((value_counts (nonMissing col)).map Prod.snd) ("Power outage frequency"),
      joinCounts (value_counts (nonMissing col))) ∧
    chart11_workplace col = (Chart.pie ((value_counts (nonMissing col)).map Prod.fst)
        ((value_counts (nonMissing col)).map Prod.snd) ((4 : ℚ) / 10)
        ("Separate workplace at home"),
      joinCounts (value_counts (nonMissing col))) ∧
    chart12_accessories col = (Chart.pie ((value_counts (nonMissing col)).map Prod.fst)
        ((value_counts (nonMissing col)).map Prod.snd) ((4 : ℚ) / 10)
        ("Accessories availability"),
      joinCounts (value_counts (nonMissing col))) ∧
    chart13_ergonomic col = (Chart.bar ((value_counts (nonMissing col)).map Prod.fst)
        ((value_counts (nonMissing col)).map Prod.snd) ("Workplace ergonomics"),
      joinCounts (value_counts (nonMissing col))) ∧
    (∀ fig d, chart8_backup_type col = some (fig, d) →
      d = joinCounts ((value_counts (nonMissing col)).filter (fun p => keepBackupType p.1)) ∧
      List.Sorted (fun p q : String × Nat => q.2 ≤ p.2)
        ((value_counts (nonMissing col)).filter (fun p => keepBackupType p.1))) ∧
    value_counts (nonMissing colDeviceW) = [("A", 5), ("B", 3), ("C", 2)] := by
  refine ⟨sorted_valueCounts _, rfl, rfl, rfl, rfl, rfl, ?_, by with_unfolding_all decide⟩
  intro fig d h
  refine ⟨?_, (sorted_valueCounts (nonMissing col)).filter _⟩
  rw [chart8_backup_type] at h
  by_cases hc : ((value_counts (nonMissing col)).filter (fun p => keepBackupType p.1)).length > 0
  · rw [if_pos hc] at h
    exact (congrArg Prod.snd (Option.some.inj h)).symm
  · rw [if_neg hc] at h
    cases h

/-- C6 witness: on a concrete backup-type column the rendered summary
"Generator: 2, UPS: 1" is the comma-joined list over the filtered
counts, which are sorted by descending count. -/
theorem C6_descending_count_order_witness :
    ("Generator: 2, UPS: 1" : String) =
      joinCounts ((value_counts (nonMissing colBackupTypeW)).filter (fun p => keepBackupType p.1)) ∧
    List.Sorted (fun p q : String × Nat => q.2 ≤ p.2)
      ((value_counts (nonMissing colBackupTypeW)).filter (fun p => keepBackupType p.1)) := by
  have h := (C6_descending_count_order colBackupTypeW).2.2.2.2.2.2.1
    (Chart.hbar
      (((value_counts (nonMissing colBackupTypeW)).filter (fun p => keepBackupType p.1)).map Prod.fst)
      (((value_counts (nonMissing colBackupTypeW)).filter (fun p => keepBackupType p.1)).map Prod.snd)
      ("Types of backup power (actual users)"))
    ("Generator: 2, UPS: 1")
    (by with_unfolding_all decide)
  exact ⟨h.1, h.2⟩

/-- C7: in the shared numeric coercion every comma of the raw string is
replaced by a dot (so no comma survives, and multi-comma strings become
multi-dot strings that fail to parse), and entries that still fail to
parse are dropped from the coerced series rather than aborting it;
concretely, ["1,5", "1,234,5", "abc"] coerces to just [1.5]. -/
theorem C7_comma_replacement_and_drop :
    (∀ s : String, (replaceCommas s).data = s.data.map (fun c => if c = ',' then '.' else c)) ∧
    (∀ s : String, ',' ∉ (replaceCommas s).data) ∧
    (∀ (col : List Cell) (c : String), to_numeric_str (replaceCommas c) = none →
      coerceColumn (some c :: col) = coerceColumn col) ∧
    (∀ (col : List Cell) (c : String) (q : ℚ), to_numeric_str (replaceCommas c) = some q →
      coerceColumn (some c :: col) = q :: coerceColumn col) ∧
    (∀ col : List Cell, coerceColumn (none :: col) = coerceColumn col) ∧
    coerceColumn [some ("1,5"), some ("1,234,5"), some ("abc")] = [(3 : ℚ) / 2] := by
  refine ⟨fun s => rfl, ?_, ?_, ?_, fun col => rfl, by with_unfolding_all decide⟩
  · intro s hmem
    rcases List.mem_map.mp hmem with ⟨c, hc, he⟩
    by_cases h : c = ','
    · rw [if_pos h] at he
      exact absurd he (by decide)
    · rw [if_neg h] at he
      exact h he
  · intro col c h
    simp [coerceColumn, h]
  · intro col c q h
    simp [coerceColumn, h]

/-- C7 witness: dropping and parsing realised on concrete cells. -/
theorem C7_comma_replacement_and_drop_witness :
    coerceColumn [some ("abc")] = coerceColumn [] ∧
    coerceColumn [some ("1,5")] = (3 : ℚ) / 2 :: coerceColumn [] :=
  ⟨C7_comma_replacement_and_drop.2.2.1 [] ("abc") (by with_unfolding_all decide),
    C7_comma_replacement_and_drop.2.2.2.1 [] ("1,5") ((3 : ℚ) / 2)
      (by with_unfolding_all decide)⟩

/-- C8: the backup-duration derivation drops non-positive and
unparseable values, emits a chart exactly when a positive value
remains (otherwise the chart is silently omitted — in this model the
coercion is total, so the code's broad `except: pass` never fires and
omission is the only non-emitting outcome), and the emitted bar's
x-values are sorted ascending and all positive. -/
theorem C8_backup_duration (col : List Cell) :
    (chart9_backup_duration col = none ↔
      (coerceColumn col).filter (fun x => decide (0 < x)) = []) ∧
    (∀ fig d, chart9_backup_duration col = some (fig, d) →
      fig = Chart.barNum
        ((value_counts_sortIndex ((coerceColumn col).filter (fun x => decide (0 < x)))).map Prod.fst)
        ((value_counts_sortIndex ((coerceColumn col).filter (fun x => decide (0 < x)))).map Prod.snd)
        ("Backup power duration (hours) (actual users)") ∧
      List.Sorted (fun p q : ℚ × Nat => p.1 ≤ q.1)
        (value_counts_sortIndex ((coerceColumn col).filter (fun x => decide (0 < x)))) ∧
      (∀ x ∈ (value_counts_sortIndex ((coerceColumn col).filter (fun x => decide (0 < x)))).map Prod.fst,
        0 < x)) := by
  constructor
  · rw [chart9_backup_duration]
    by_cases hc : ((coerceColumn col).filter (fun x => decide (0 < x))).length > 0
    · rw [if_pos hc]
      simp only [reduceCtorEq, false_iff]
      intro h
      rw [h] at hc
      simp at hc
    · rw [if_neg hc]
      simp only [true_iff]
      rw [← List.length_eq_zero]
      omega
  · intro fig d h
    rw [chart9_backup_duration] at h
    by_cases hc : ((coerceColumn col).filter (fun x => decide (0 < x))).length > 0
    · rw [if_pos hc] at h
      have h2 := Option.some.inj h
      refine ⟨(congrArg Prod.fst h2).symm, sorted_valueCounts_sortIndex _, ?_⟩
      intro x hx
      rcases List.mem_map.mp hx with ⟨p, hp, rfl⟩
      have hm := (mem_valueCounts_sortIndex hp).1
      have := (List.mem_filter.mp hm).2
      simpa using this
    · rw [if_neg hc] at h
      cases h

/-- C8 witness: on a concrete backup-duration column the chart is
emitted with ascending, positive x-values. -/
theorem C8_backup_duration_witness :
    Chart.barNum [(3 : ℚ) / 2, 2] [1, 1] ("Backup power duration (hours) (actual users)") =
      Chart.barNum
        ((value_counts_sortIndex ((coerceColumn colBackupDurW).filter (fun x => decide (0 < x)))).map Prod.fst)
        ((value_counts_sortIndex ((coerceColumn colBackupDurW).filter (fun x => decide (0 < x)))).map Prod.snd)
        ("Backup power duration (hours) (actual users)") ∧
    List.Sorted (fun p q : ℚ × Nat => p.1 ≤ q.1)
      (value_counts_sortIndex ((coerceColumn colBackupDurW).filter (fun x => decide (0 < x)))) := by
  have h := (C8_backup_duration colBackupDurW).2
    (Chart.barNum [(3 : ℚ) / 2, 2] [1, 1] ("Backup power duration (hours) (actual users)"))
    ("1.5h: 1, 2.0h: 1")
    (by with_unfolding_all decide)
  exact ⟨h.1, h.2.1⟩

theorem chart1_region_none_iff (col : List Cell) :
    chart1_region col = none ↔ nonMissing col = [] := by
  rw [chart1_region]
  cases hvc : value_counts (nonMissing col) with
  | nil => simp [(valueCounts_eq_nil _).mp hvc]
  | cons top rest =>
    simp only [reduceCtorEq, false_iff]
    intro h
    have h0 := (valueCounts_eq_nil (nonMissing col)).mpr h
    rw [h0] at hvc
    cases hvc

theorem chart2_conn_none_iff (col : List Cell) :
    chart2_conn col = none ↔ nonMissing col = [] := by
  rw [chart2_conn]
  cases hvc : value_counts (nonMissing col) with
  | nil => simp [(valueCounts_eq_nil _).mp hvc]
  | cons top rest =>
    simp only [reduceCtorEq, false_iff]
    intro h
    have h0 := (valueCounts_eq_nil (nonMissing col)).mpr h
    rw [h0] at hvc
    cases hvc

theorem chart1_region_isSome (col : List Cell) (h : nonMissing col ≠ []) :
    (chart1_region col).isSome = true := by
  rw [chart1_region]
  cases hvc : value_counts (nonMissing col) with
  | nil => exact absurd ((valueCounts_eq_nil _).mp hvc) h
  | cons top rest => rfl

theorem chart2_conn_isSome (col : List Cell) (h : nonMissing col ≠ []) :
    (chart2_conn col).isSome = true := by
  rw [chart2_conn]
  cases hvc : value_counts (nonMissing col) with
  | nil => exact absurd ((valueCounts_eq_nil _).mp hvc) h
  | cons top rest => rfl

/-- C9 (amended): with an all-missing region or connection-type column
the derivation fails (argmax of an empty counts series) and the whole
run aborts; but whenever those two columns have data the run succeeds
regardless of every other column, i.e. not only the stability, hours,
outage-duration and backup-duration/backup-type derivations but also
the outage-frequency, backup-availability, device, workplace,
accessories and ergonomics derivations tolerate an empty or unusable
column. -/
theorem C9_empty_column_tolerance (t : Table) :
    (nonMissing t.region = [] → create_all_charts t = none) ∧
    (nonMissing t.conn = [] → create_all_charts t = none) ∧
    (nonMissing t.region ≠ [] → nonMissing t.conn ≠ [] →
      (create_all_charts t).isSome = true) := by
  refine ⟨?_, ?_, ?_⟩
  · intro h
    have h1 : chart1_region t.region = none := (chart1_region_none_iff _).mpr h
    simp [create_all_charts, h1]
  · intro h
    have h2 : chart2_conn t.conn = none := (chart2_conn_none_iff _).mpr h
    cases hr : chart1_region t.region with
    | none => simp [create_all_charts, hr]
    | some p => simp [create_all_charts, hr, h2]
  · intro h1 h2
    rcases Option.isSome_iff_exists.mp (chart1_region_isSome _ h1) with ⟨p1, hp1⟩
    rcases Option.isSome_iff_exists.mp (chart2_conn_isSome _ h2) with ⟨p2, hp2⟩
    simp [create_all_charts, hp1, hp2]

/-- C9 counterexample: the device column has no placeholder branch,
is entirely missing here, and yet its derivation succeeds and the run
completes — refuting the claim that only the stability, hours,
outage-duration and backup-duration/backup-type derivations tolerate
an empty column. -/
theorem C9_counterexample :
    (∀ c ∈ tableDeviceEmpty.device, c = none) ∧
    chart10_device tableDeviceEmpty.device =
      (Chart.pie [] [] ((4 : ℚ) / 10) ("Available device type"), "") ∧
    (create_all_charts tableDeviceEmpty).isSome = true := by
  with_unfolding_all decide

/-- C9 witness: the abort and success branches on concrete tables. -/
theorem C9_empty_column_tolerance_witness :
    create_all_charts tableRegionEmpty = none ∧
    create_all_charts tableConnEmpty = none ∧
    (create_all_charts tableDeviceEmpty).isSome = true :=
  ⟨(C9_empty_column_tolerance tableRegionEmpty).1 (by with_unfolding_all decide),
    (C9_empty_column_tolerance tableConnEmpty).2.1 (by with_unfolding_all decide),
    (C9_empty_column_tolerance tableDeviceEmpty).2.2 (by with_unfolding_all decide)
      (by with_unfolding_all decide)⟩

/-- C10: the backup-availability share division is guarded — on a
column with zero responses the summary reports a 0 share instead of
failing — and no other share computation has such a guard: with zero
responses the region and connection-type derivations fail outright and
the stability derivation prints no share at all. -/
theorem C10_yes_share_guard (col : List Cell) :
    (nonMissing col = [] → chart7_backup col =
      (Chart.pie [] [] ((4 : ℚ) / 10) ("Backup power availability"), "Yes: 0 (0%), No: 0.")) ∧
    (nonMissing col = [] → chart1_region col = none) ∧
    (nonMissing col = [] → chart2_conn col = none) ∧
    (nonMissing col = [] → (chart3_stability col).2 = "No stability data.") := by
  refine ⟨?_, fun h => (chart1_region_none_iff col).mpr h,
    fun h => (chart2_conn_none_iff col).mpr h, ?_⟩
  · intro h
    simp only [chart7_backup]
    rw [h]
    with_unfolding_all decide
  · intro h
    simp only [chart3_stability]
    rw [h]
    with_unfolding_all decide

/-- C10 witness: the guard and the unguarded failures on a concrete
all-missing column. -/
theorem C10_yes_share_guard_witness :
    chart7_backup colAllMissing =
      (Chart.pie [] [] ((4 : ℚ) / 10) ("Backup power availability"), "Yes: 0 (0%), No: 0.") ∧
    chart1_region colAllMissing = none ∧
    chart2_conn colAllMissing = none ∧
    (chart3_stability colAllMissing).2 = "No stability data." :=
  ⟨(C10_yes_share_guard colAllMissing).1 (by with_unfolding_all decide),
    (C10_yes_share_guard colAllMissing).2.1 (by with_unfolding_all decide),
    (C10_yes_share_guard colAllMissing).2.2.1 (by with_unfolding_all decide),
    (C10_yes_share_guard colAllMissing).2.2.2 (by with_unfolding_all decide)⟩

/-- C1: for every categorical chart the sum of the counts placed in the
chart specification equals the number of non-missing responses in the
column (for backup type, the number of responses surviving the
"-"/blank exclusion), and each top/majority summary (region,
connection type, stability) prints exactly
`round(100 * max_count / total_count, 1)` where `max_count` is the
largest category count and `total_count` the number of non-missing
responses. -/
theorem C1_counts_and_shares (col : List Cell) :
    (∀ fig d, chart1_region col = some (fig, d) →
      fig.valuesSum = (nonMissing col).length ∧
      ∃ lab, d = "Top region: " ++ lab ++ " (" ++
        pyRoundStr 1 (100 * (maxCount (value_counts (nonMissing col)) : ℚ) /
          ((nonMissing col).length : ℚ)) ++
        "%). Total regions: " ++ toString (value_counts (nonMissing col)).length ++ ".") ∧
    (∀ fig d, chart2_conn col = some (fig, d) →
      fig.valuesSum = (nonMissing col).length ∧
      ∃ lab, d = "Most common connection: " ++ lab ++ " (" ++
        pyRoundStr 1 (100 * (maxCount (value_counts (nonMissing col)) : ℚ) /
          ((nonMissing col).length : ℚ)) ++ "%).") ∧
    (chart3_stability col).1.valuesSum = (nonMissing col).length ∧
    (value_counts (nonMissing col) ≠ [] →
      ∃ lab, (chart3_stability col).2 = "Majority rated: " ++ lab ++ " (" ++
        pyRoundStr 1 (100 * (maxCount (value_counts (nonMissing col)) : ℚ) /
          ((nonMissing col).length : ℚ)) ++ "%).") ∧
    (chart5_outage_freq col).1.valuesSum = (nonMissing col).length ∧
    (chart7_backup col).1.valuesSum = (nonMissing col).length ∧
    (∀ fig d, chart8_backup_type col = some (fig, d) →
      fig.valuesSum = ((nonMissing col).filter keepBackupType).length) ∧
    (chart10_device col).1.valuesSum = (nonMissing col).length ∧
    (chart11_workplace col).1.valuesSum = (nonMissing col).length ∧
    (chart12_accessories col).1.valuesSum = (nonMissing col).length ∧
    (chart13_ergonomic col).1.valuesSum = (nonMissing col).length := by
  refine ⟨?_, ?_, ?_, ?_, ?_, ?_, ?_, ?_, ?_, ?_, ?_⟩
  · intro fig d h
    rw [chart1_region] at h
    cases hvc : value_counts (nonMissing col) with
    | nil => rw [hvc] at h; cases h
    | cons top rest =>
      rw [hvc] at h
      have h2 := Option.some.inj h
      injection h2 with hfig hd
      subst hfig
      subst hd
      have hsum : ((top :: rest).map Prod.snd).sum = (nonMissing col).length := by
        have hs := sum_valueCounts (nonMissing col)
        rw [hvc] at hs
        exact hs
      have hmax : maxCount (top :: rest) = top.2 := by
        rw [← hvc]
        exact maxCount_of_sorted_head hvc
      constructor
      · show ((top :: rest).map Prod.snd).sum = _
        exact hsum
      · refine ⟨top.1, ?_⟩
        rw [hmax, ← hsum]
  · intro fig d h
    rw [chart2_conn] at h
    cases hvc : value_counts (nonMissing col) with
    | nil => rw [hvc] at h; cases h
    | cons top rest =>
      rw [hvc] at h
      have h2 := Option.some.inj h
      injection h2 with hfig hd
      subst hfig
      subst hd
      have hsum : ((top :: rest).map Prod.snd).sum = (nonMissing col).length := by
        have hs := sum_valueCounts (nonMissing col)
        rw [hvc] at hs
        exact hs
      have hmax : maxCount (top :: rest) = top.2 := by
        rw [← hvc]
        exact maxCount_of_sorted_head hvc
      constructor
      · show ((top :: rest).map Prod.snd).sum = _
        exact hsum
      · refine ⟨top.1, ?_⟩
        rw [hmax, ← hsum]
  · show ((value_counts (nonMissing col)).map Prod.snd).sum = _
    exact sum_valueCounts _
  · intro hne
    cases hvc : value_counts (nonMissing col) with
    | nil => exact absurd hvc hne
    | cons top rest =>
      have hkey : (chart3_stability col).2 = "Majority rated: " ++ top.1 ++ " (" ++
          pyRoundStr 1 (100 * (top.2 : ℚ) / ((((top :: rest).map Prod.snd).sum : ℚ))) ++
          "%)." := by
        simp only [chart3_stability]
        rw [hvc]
      have hsum : ((top :: rest).map Prod.snd).sum = (nonMissing col).length := by
        have hs := sum_valueCounts (nonMissing col)
        rw [hvc] at hs
        exact hs
      have hmax : maxCount (top :: rest) = top.2 := by
        rw [← hvc]
        exact maxCount_of_sorted_head hvc
      refine ⟨top.1, ?_⟩
      rw [hmax, ← hsum]
      exact hkey
  · show ((value_counts (nonMissing col)).map Prod.snd).sum = _
    exact sum_valueCounts _
  · show ((value_counts (nonMissing col)).map Prod.snd).sum = _
    exact sum_valueCounts _
  · intro fig d h
    rw [chart8_backup_type] at h
    by_cases hc : ((value_counts (nonMissing col)).filter (fun p => keepBackupType p.1)).length > 0
    · rw [if_pos hc] at h
      have h2 := Option.some.inj h
      injection h2 with hfig hd
      subst hfig
      show (((value_counts (nonMissing col)).filter (fun p => keepBackupType p.1)).map Prod.snd).sum = _
      exact sum_valueCounts_filter (nonMissing col) keepBackupType
    · rw [if_neg hc] at h
      cases h
  · show ((value_counts (nonMissing col)).map Prod.snd).sum = _
    exact sum_valueCounts _
  · show ((value_counts (nonMissing col)).map Prod.snd).sum = _
    exact sum_valueCounts _
  · show ((value_counts (nonMissing col)).map Prod.snd).sum = _
    exact sum_valueCounts _
  · show ((value_counts (nonMissing col)).map Prod.snd).sum = _
    exact sum_valueCounts _

/-- C1 witness: the count/share properties realised on concrete
columns for the guarded derivations (region, connection, stability
majority, backup type). -/
theorem C1_counts_and_shares_witness :
    ((Chart.pie (["Kyiv", "Lviv"]) ([2, 1]) ((4 : ℚ) / 10)
        ("Region distribution (n=3)")).valuesSum = (nonMissing colRegionW).length ∧
      ∃ lab, ("Top region: Kyiv (66.7%). Total regions: 2." : String) =
        "Top region: " ++ lab ++ " (" ++
          pyRoundStr 1 (100 * (maxCount (value_counts (nonMissing colRegionW)) : ℚ) /
            ((nonMissing colRegionW).length : ℚ)) ++
          "%). Total regions: " ++ toString (value_counts (nonMissing colRegionW)).length ++ ".") ∧
    ((Chart.pie (["Kyiv", "Lviv"]) ([2, 1]) ((4 : ℚ) / 10)
        ("Internet connection type")).valuesSum = (nonMissing colRegionW).length ∧
      ∃ lab, ("Most common connection: Kyiv (66.7%)." : String) =
        "Most common connection: " ++ lab ++ " (" ++
          pyRoundStr 1 (100 * (maxCount (value_counts (nonMissing colRegionW)) : ℚ) /
            ((nonMissing colRegionW).length : ℚ)) ++ "%).") ∧
    (∃ lab, (chart3_stability colRegionW).2 = "Majority rated: " ++ lab ++ " (" ++
      pyRoundStr 1 (100 * (maxCount (value_counts (nonMissing colRegionW)) : ℚ) /
        ((nonMissing colRegionW).length : ℚ)) ++ "%).") ∧
    (Chart.hbar (["Generator", "UPS"]) ([2, 1])
        ("Types of backup power (actual users)")).valuesSum =
      ((nonMissing colBackupTypeW).filter keepBackupType).length :=
  ⟨(C1_counts_and_shares colRegionW).1
      (Chart.pie (["Kyiv", "Lviv"]) ([2, 1]) ((4 : ℚ) / 10) ("Region distribution (n=3)"))
      ("Top region: Kyiv (66.7%). Total regions: 2.") (by with_unfolding_all decide),
    (C1_counts_and_shares colRegionW).2.1
      (Chart.pie (["Kyiv", "Lviv"]) ([2, 1]) ((4 : ℚ) / 10) ("Internet connection type"))
      ("Most common connection: Kyiv (66.7%).") (by with_unfolding_all decide),
    (C1_counts_and_shares colRegionW).2.2.2.1 (by with_unfolding_all decide),
    (C1_counts_and_shares colBackupTypeW).2.2.2.2.2.2.1
      (Chart.hbar (["Generator", "UPS"]) ([2, 1]) ("Types of backup power (actual users)"))
      ("Generator: 2, UPS: 1") (by with_unfolding_all decide)⟩
